import Mathlib

/-!
Shallow embedding of the ARDK "epoch" entity pool, spatial grid and
three-gate collision filter (src/projects/epoch/src/engine/entity.c,
spatial.c, spatial.h, config.h), with theorems checking the
natural-language specification against the code.

Machine integers are modelled as `Nat`/`Int` with explicit wrapping where
the C code truncates (casts to `s16`, `u8` counters mod 256).  The global
`entities[]` array and the grid arrays are modelled as total functions
`Nat → _` so that out-of-bounds writes performed by the C code are
observable in the model.
-/

namespace ARDK

/-- Constant MAX_ENTITIES = 64 (config.h, via ARDK_MAX_ENTITIES). -/
def MAX_ENTITIES : Nat := 64

/-- Constant MAP_WIDTH = 1280 (config.h). -/
def MAP_WIDTH : Int := 1280

/-- Constant MAP_HEIGHT = 896 (config.h). -/
def MAP_HEIGHT : Int := 896

/-- Flag constant ENT_ACTIVE = 0x01 (entity.h). -/
def ENT_ACTIVE : Nat := 0x01

/-- Flag constant ENT_VISIBLE = 0x02 (entity.h). -/
def ENT_VISIBLE : Nat := 0x02

/-- Sentinel constant SPATIAL_NULL = 0xFF (spatial.h). -/
def SPATIAL_NULL : Nat := 0xFF

/-- Constant SPATIAL_GRID_CELLS = 512 (spatial.h: 32 * 16). -/
def SPATIAL_GRID_CELLS : Nat := 512

/-- Slot range constants from config.h. -/
def SLOT_PLAYER : Nat := 0

def SLOT_FENRIR : Nat := 1

def SLOT_ENEMIES_START : Nat := 2

def SLOT_ENEMIES_END : Nat := 25

def SLOT_PROJ_START : Nat := 26

def SLOT_PROJ_END : Nat := 57

def SLOT_TOWERS_START : Nat := 58

/-- Collision-mask constants (entity.h). -/
def COLL_NONE : Nat := 0x00

def COLL_PLAYER : Nat := 0x01

def COLL_ENEMY : Nat := 0x02

def COLL_PROJ_PLR : Nat := 0x04

def COLL_PROJ_ENY : Nat := 0x08

def COLL_PICKUP : Nat := 0x10

def COLL_TOWER : Nat := 0x20

def COLL_FENRIR : Nat := 0x40

/-- Truncation of an integer to a signed 16-bit value (C cast `(s16)v`). -/
def toS16 (v : Int) : Int := (v + 32768) % 65536 - 32768

/-- Arithmetic shift right by 8 on a signed value: `FP_INT(x) = (x) >> 8`
(config.h); on the target compiler this is floor division by 256. -/
def fpInt (v : Int) : Int := v / 256

/-- The 24-byte `Entity` record (entity.h).  Field widths (u8/s16/s32/u16)
are constrained by `Entity.wf` below rather than by the field types. -/
structure Entity where
  flags : Nat
  type : Nat
  timer : Nat
  frame : Nat
  x : Int
  y : Int
  vx : Int
  vy : Int
  hp : Int
  data : Nat
  width : Nat
  height : Nat
  spriteId : Nat
  collMask : Nat
  deriving DecidableEq, Repr

/-- Field-width constraints matching the C field types. -/
def Entity.wf (e : Entity) : Prop :=
  e.flags < 256 ∧ e.type < 256 ∧ e.timer < 256 ∧ e.frame < 256 ∧
  -2147483648 ≤ e.x ∧ e.x < 2147483648 ∧
  -2147483648 ≤ e.y ∧ e.y < 2147483648 ∧
  -32768 ≤ e.vx ∧ e.vx < 32768 ∧ -32768 ≤ e.vy ∧ e.vy < 32768 ∧
  -32768 ≤ e.hp ∧ e.hp < 32768 ∧ e.data < 65536 ∧
  e.width < 256 ∧ e.height < 256 ∧ e.spriteId < 256 ∧ e.collMask < 256

/-- The all-zero entity (`memset(entities, 0, ...)` in entity_initPool). -/
def zeroEntity : Entity := ⟨0, 0, 0, 0, 0, 0, 0, 0, 0, 0, 0, 0, 0, 0⟩

/-- State of the entity pool: the `entities[]` array (as a total map from
slot index) plus the `u8 entityCount` counter. -/
structure PoolState where
  entities : Nat → Entity
  entityCount : Nat

/-- Pointwise array update `entities[i] = e`. -/
def updateEnt (f : Nat → Entity) (i : Nat) (e : Entity) : Nat → Entity :=
  fun j => if j = i then e else f j

/-- Model of entity_initPool (entity.c lines 17-24): zero every slot, zero the
counter. -/
def entity_initPool : PoolState := ⟨fun _ => zeroEntity, 0⟩

/-- The `switch (type & 0xF0)` slot-range selection of entity_alloc
(entity.c lines 31-48): returns the `[start, end)` scan range. -/
def allocRange (t : Nat) : Nat × Nat :=
  if t &&& 0xF0 = 0x10 then (SLOT_PLAYER, SLOT_FENRIR + 1)
  else if t &&& 0xF0 = 0x20 then (SLOT_ENEMIES_START, SLOT_ENEMIES_END + 1)
  else if t &&& 0xF0 = 0x30 then (SLOT_PROJ_START, SLOT_PROJ_END + 1)
  else (SLOT_TOWERS_START, MAX_ENTITIES)

/-- The default hitbox / collision-mask table of entity_alloc
(entity.c lines 61-87): width, height, collMask for a type byte. -/
def allocDefaults (t : Nat) : Nat × Nat × Nat :=
  if t &&& 0xF0 = 0x10 then
    (16, 16, if t = 0x10 then COLL_PLAYER else COLL_FENRIR)
  else if t &&& 0xF0 = 0x20 then (24, 24, COLL_ENEMY)
  else if t &&& 0xF0 = 0x30 then
    (12, 12, if t = 0x30 then COLL_PROJ_PLR else COLL_PROJ_ENY)
  else if t &&& 0xF0 = 0x40 then (64, 64, COLL_TOWER)
  else if t &&& 0xF0 = 0x60 then (16, 16, COLL_PICKUP)
  else (16, 16, COLL_NONE)

/-- The linear scan `for (i = start; i < end; i++)` of entity_alloc
(entity.c lines 51-52): first slot in the range whose ENT_ACTIVE flag is
clear.  `fuel` is the number of slots left to examine (`end - i`). -/
def scanFree (ents : Nat → Entity) (i : Nat) (fuel : Nat) : Option Nat :=
  match fuel with
  | 0 => none
  | n + 1 =>
    if (ents i).flags &&& ENT_ACTIVE = 0 then some i
    else scanFree ents (i + 1) n

/-- Model of entity_alloc (entity.c lines 26-95): returns the allocated slot (or
`-1` on exhaustion, the `s8` sentinel) together with the new pool state. -/
def entity_alloc (p : PoolState) (t : Nat) : Int × PoolState :=
  match scanFree p.entities (allocRange t).1 ((allocRange t).2 - (allocRange t).1) with
  | none => (-1, p)
  | some i =>
    ((i : Int),
      { entities :=
          updateEnt p.entities i
            { p.entities i with
              flags := ENT_ACTIVE ||| ENT_VISIBLE
              type := t
              timer := 0
              data := 0
              width := (allocDefaults t).1
              height := (allocDefaults t).2.1
              collMask := (allocDefaults t).2.2 }
        entityCount := (p.entityCount + 1) % 256 })

/-- Model of entity_free (entity.c lines 97-104): guarded by
`slot < MAX_ENTITIES && (entities[slot].flags & ENT_ACTIVE)`; clears the
flags and type and decrements the non-zero counter. -/
def entity_free (p : PoolState) (slot : Nat) : PoolState :=
  if slot < MAX_ENTITIES ∧ (p.entities slot).flags &&& ENT_ACTIVE ≠ 0 then
    { entities :=
        updateEnt p.entities slot
          { p.entities slot with flags := 0, type := 0 }
      entityCount :=
        if p.entityCount > 0 then p.entityCount - 1 else p.entityCount }
  else p

/-- Sequential clamp of a pixel coordinate into `[0, limit)`
(spatial.h lines 52-59: `if (px < 0) px = 0; if (px >= limit) px = limit-1`). -/
def clampPix (v limit : Int) : Int :=
  if v < 0 then 0 else if v ≥ limit then limit - 1 else v

/-- Clamp of an unsigned cell coordinate (spatial.h lines 64-67:
`if (cellX >= limit) cellX = limit - 1`). -/
def clampCell (c limit : Nat) : Nat := if c ≥ limit then limit - 1 else c

/-- Model of spatial_getCellIndex (spatial.h lines 48-70).  `s16 px = FP_INT(x)`
truncates the shifted s32 to s16; the pixel is clamped into the map
bounds, divided by the 64-pixel cell size, the cell coordinates clamped
into the 32x16 grid, and combined as `cellX + (cellY << 5)`. -/
def spatial_getCellIndex (x y : Int) : Nat :=
  clampCell ((clampPix (toS16 (fpInt x)) MAP_WIDTH).toNat / 64) 32 +
  clampCell ((clampPix (toS16 (fpInt y)) MAP_HEIGHT).toNat / 64) 16 * 32

/-- State of the spatial grid: `u8 firstInCell[SPATIAL_GRID_CELLS]` and
`u8 nextEntity[MAX_ENTITIES]`, modelled as total maps from the index so
that writes outside the declared array bounds are observable. -/
structure GridState where
  firstInCell : Nat → Nat
  nextEntity : Nat → Nat

/-- Model of spatial_clear (spatial.c lines 13-18): every entry becomes
SPATIAL_NULL. -/
def spatial_clear : GridState := ⟨fun _ => SPATIAL_NULL, fun _ => SPATIAL_NULL⟩

/-- Model of spatial_insert (spatial.c lines 23-29): prepend `slot` onto the cell
list of the cell computed from `(x, y)`.  The C code performs both writes
unconditionally, with no range check on `slot`. -/
def spatial_insert (g : GridState) (slot : Nat) (x y : Int) : GridState :=
  { firstInCell := fun i =>
      if i = spatial_getCellIndex x y then slot else g.firstInCell i
    nextEntity := fun i =>
      if i = slot then g.firstInCell (spatial_getCellIndex x y)
      else g.nextEntity i }

/-- Model of spatial_getFirstInCell (spatial.c lines 34-38): out-of-range cell
indices return SPATIAL_NULL. -/
def spatial_getFirstInCell (g : GridState) (cellIndex : Nat) : Nat :=
  if cellIndex ≥ SPATIAL_GRID_CELLS then SPATIAL_NULL
  else g.firstInCell cellIndex

/-- Pixel centre of an entity coordinate: `(s16)(e->x >> 8)`
(spatial.c lines 52-53, 82-83). -/
def pix (v : Int) : Int := toS16 (fpInt v)

/-- The in-place `if (dx < 0) dx = -dx` of spatial.c lines 91-94: the
negation is computed in `int` and stored back into the `s16` variable. -/
def absS16 (v : Int) : Int := if v < 0 then toS16 (-v) else v

/-- Value of `s16 dx = srcX - tgtX` followed by the absolute value
(spatial.c lines 86-94): the difference of two s16 values is truncated
back to s16 on assignment. -/
def collDx (src tgt : Entity) : Int := absS16 (toS16 (pix src.x - pix tgt.x))

/-- Same for the y axis (spatial.c lines 87, 93-94). -/
def collDy (src tgt : Entity) : Int := absS16 (toS16 (pix src.y - pix tgt.y))

/-- Value of `s16 manhattanMax = srcHalfW + srcHalfH + 32` (spatial.c line 59),
with `srcHalfW = source->width >> 1`. -/
def manhattanMax (src : Entity) : Int :=
  (src.width / 2 : Nat) + (src.height / 2 : Nat) + 32

/-- Value of `s16 combinedW = srcHalfW + tgtHalfW` (spatial.c lines 104-106). -/
def combinedHalfW (src tgt : Entity) : Int :=
  (src.width / 2 : Nat) + (tgt.width / 2 : Nat)

/-- Value of `s16 combinedH = srcHalfH + tgtHalfH` (spatial.c lines 105-107). -/
def combinedHalfH (src tgt : Entity) : Int :=
  (src.height / 2 : Nat) + (tgt.height / 2 : Nat)

/-- Gate 2, the Manhattan pre-check `dx + dy < manhattanMax`
(spatial.c line 99). -/
def gate2Pass (src tgt : Entity) : Bool :=
  decide (collDx src tgt + collDy src tgt < manhattanMax src)

/-- Gate 3, the exact AABB test `dx < combinedW && dy < combinedH`
(spatial.c line 109). -/
def gate3Pass (src tgt : Entity) : Bool :=
  decide (collDx src tgt < combinedHalfW src tgt) &&
  decide (collDy src tgt < combinedHalfH src tgt)

/-- Combined world state seen by the collision query: the entity pool
array and the spatial grid. -/
structure WorldState where
  entities : Nat → Entity
  grid : GridState

/-- The per-candidate test of the collision loop body
(spatial.c lines 70-112): frame-stagger parity, self-skip, ENT_ACTIVE,
Gate 1 (bitmask), Gate 2 (Manhattan), Gate 3 (AABB), in the code's order. -/
def collMatch (w : WorldState) (sourceSlot targetMask frameCount slot : Nat) :
    Bool :=
  (slot &&& 1 == frameCount &&& 1) &&
  (slot != sourceSlot) &&
  ((w.entities slot).flags &&& ENT_ACTIVE != 0) &&
  ((w.entities slot).collMask &&& targetMask != 0) &&
  gate2Pass (w.entities sourceSlot) (w.entities slot) &&
  gate3Pass (w.entities sourceSlot) (w.entities slot)

/-- The `while (slot != SPATIAL_NULL)` walk of the cell's intrusive list
(spatial.c lines 65-118), fuel-bounded: on each step the candidate is
either reported (all checks pass) or the walk advances to
`nextEntity[slot]`.  Exhausted fuel yields the no-collision sentinel. -/
def collisionLoop (w : WorldState) (sourceSlot targetMask frameCount : Nat) :
    Nat → Nat → Nat
  | _, 0 => SPATIAL_NULL
  | slot, fuel + 1 =>
    if slot = SPATIAL_NULL then SPATIAL_NULL
    else if collMatch w sourceSlot targetMask frameCount slot then slot
    else collisionLoop w sourceSlot targetMask frameCount
      (w.grid.nextEntity slot) fuel

/-- Model of spatial_checkCollisionThreeGate (spatial.c lines 46-121): walk the
source's own grid cell and return the first slot passing all gates, or
0xFF. -/
def spatial_checkCollisionThreeGate (w : WorldState)
    (sourceSlot targetMask frameCount : Nat) : Nat :=
  collisionLoop w sourceSlot targetMask frameCount
    (w.grid.firstInCell
      (spatial_getCellIndex (w.entities sourceSlot).x
        (w.entities sourceSlot).y)) 256

/-- Whether an entity's ENT_ACTIVE flag is set. -/
def isActive (e : Entity) : Bool := e.flags &&& ENT_ACTIVE != 0

/-- Number of entities in the pool array whose ENT_ACTIVE flag is set. -/
def activeCount (p : PoolState) : Nat :=
  (List.range MAX_ENTITIES).countP (fun i => isActive (p.entities i))

/-- One externally observable pool operation: an `entity_alloc` or
`entity_free` call. -/
inductive PoolOp where
  | alloc (t : Nat)
  | free (slot : Nat)

/-- Effect of one pool operation on the pool state. -/
def poolStep (p : PoolState) (op : PoolOp) : PoolState :=
  match op with
  | .alloc t => (entity_alloc p t).2
  | .free slot => entity_free p slot

/-- Pool state reached from `entity_initPool` by a call sequence. -/
def runOps (ops : List PoolOp) : PoolState :=
  ops.foldl poolStep entity_initPool

/-- The counter invariant: `entityCount` equals the number of active
slots. -/
def countInv (p : PoolState) : Prop := p.entityCount = activeCount p

/-! ## Helper lemmas -/

theorem clampCell_lt (c l : Nat) (hl : 0 < l) : clampCell c l < l := by
  unfold clampCell
  split <;> omega

/-- Every category scan range is contained in `[0, MAX_ENTITIES)` and is
well-ordered. -/
theorem allocRange_bounds (t : Nat) :
    (allocRange t).1 ≤ (allocRange t).2 ∧ (allocRange t).2 ≤ MAX_ENTITIES := by
  unfold allocRange SLOT_PLAYER SLOT_FENRIR SLOT_ENEMIES_START
    SLOT_ENEMIES_END SLOT_PROJ_START SLOT_PROJ_END SLOT_TOWERS_START
    MAX_ENTITIES
  split_ifs <;> omega

/-- A failed scan means every slot in the scanned window is active. -/
theorem scanFree_none (ents : Nat → Entity) (i fuel : Nat)
    (h : scanFree ents i fuel = none) :
    ∀ j, i ≤ j → j < i + fuel → (ents j).flags &&& ENT_ACTIVE ≠ 0 := by
  induction fuel generalizing i with
  | zero => omega
  | succ n ih =>
    intro j hj1 hj2
    unfold scanFree at h
    by_cases hfree : (ents i).flags &&& ENT_ACTIVE = 0
    · simp [hfree] at h
    · rw [if_neg hfree] at h
      rcases Nat.eq_or_lt_of_le hj1 with rfl | hlt
      · exact hfree
      · exact ih (i + 1) h j hlt (by omega)

/-- A successful scan returns the first inactive slot in the window. -/
theorem scanFree_some (ents : Nat → Entity) (i fuel k : Nat)
    (h : scanFree ents i fuel = some k) :
    i ≤ k ∧ k < i + fuel ∧ (ents k).flags &&& ENT_ACTIVE = 0 ∧
    ∀ j, i ≤ j → j < k → (ents j).flags &&& ENT_ACTIVE ≠ 0 := by
  induction fuel generalizing i with
  | zero => simp [scanFree] at h
  | succ n ih =>
    unfold scanFree at h
    by_cases hfree : (ents i).flags &&& ENT_ACTIVE = 0
    · rw [if_pos hfree] at h
      obtain rfl : i = k := by simpa using h
      exact ⟨le_refl _, by omega, hfree, fun j hj1 hj2 => by omega⟩
    · rw [if_neg hfree] at h
      obtain ⟨h1, h2, h3, h4⟩ := ih (i + 1) h
      refine ⟨by omega, by omega, h3, fun j hj1 hj2 => ?_⟩
      rcases Nat.eq_or_lt_of_le hj1 with rfl | hlt
      · exact hfree
      · exact h4 j hlt hj2

/-- Flipping one index of a predicate from false to true raises the
`countP` over `List.range n` by one. -/
theorem countP_range_flip (p q : Nat → Bool) (n i : Nat) (hi : i < n)
    (hpq : ∀ j, j ≠ i → p j = q j) (hp : p i = false) (hq : q i = true) :
    (List.range n).countP q = (List.range n).countP p + 1 := by
  induction n with
  | zero => omega
  | succ n ih =>
    rw [List.range_succ, List.countP_append, List.countP_append]
    by_cases h : i = n
    · subst h
      have heq : (List.range i).countP q = (List.range i).countP p := by
        refine List.countP_congr fun j hj => ?_
        rw [hpq j (by simp at hj; omega)]
      simp [List.countP_cons, hp, hq, heq]
    · have hin : i < n := by omega
      have hpn : p n = q n := hpq n (by omega)
      simp [List.countP_cons, ← hpn, ih hin]
      split <;> omega

/-- A non-sentinel result of the collision loop satisfies the full
per-candidate test. -/
theorem collisionLoop_result_match (w : WorldState)
    (sourceSlot targetMask frameCount : Nat) :
    ∀ fuel slot,
      collisionLoop w sourceSlot targetMask frameCount slot fuel ≠ SPATIAL_NULL →
      collMatch w sourceSlot targetMask frameCount
        (collisionLoop w sourceSlot targetMask frameCount slot fuel) = true := by
  intro fuel
  induction fuel with
  | zero => intro slot h; simp [collisionLoop] at h
  | succ n ih =>
    intro slot h
    unfold collisionLoop at h ⊢
    by_cases h255 : slot = SPATIAL_NULL
    · simp [h255] at h
    · rw [if_neg h255] at h ⊢
      by_cases hm : collMatch w sourceSlot targetMask frameCount slot = true
      · rw [if_pos hm] at h ⊢
        exact hm
      · rw [if_neg hm] at h ⊢
        exact ih _ h

/-! ## Claim theorems -/

/-- C6: `spatial_getCellIndex` is a total function of the fixed-point
position and always returns a cell index strictly below
SPATIAL_GRID_CELLS (512), for every s32 input pair, including positions
outside the playfield. -/
theorem spatial_getCellIndex_lt_cells (x y : Int) :
    spatial_getCellIndex x y < SPATIAL_GRID_CELLS := by
  unfold spatial_getCellIndex SPATIAL_GRID_CELLS
  have h1 := clampCell_lt ((clampPix (toS16 (fpInt x)) MAP_WIDTH).toNat / 64)
    32 (by omega)
  have h2 := clampCell_lt ((clampPix (toS16 (fpInt y)) MAP_HEIGHT).toNat / 64)
    16 (by omega)
  omega

/-- C8: freeing the same slot twice in a row yields exactly the pool state
of freeing it once (`entity_free` is idempotent). -/
theorem entity_free_idempotent (p : PoolState) (slot : Nat) :
    entity_free (entity_free p slot) slot = entity_free p slot := by
  by_cases h : slot < MAX_ENTITIES ∧ (p.entities slot).flags &&& ENT_ACTIVE ≠ 0
  · have h1 : entity_free p slot =
        { entities :=
            updateEnt p.entities slot
              { p.entities slot with flags := 0, type := 0 }
          entityCount :=
            if p.entityCount > 0 then p.entityCount - 1 else p.entityCount } := by
      unfold entity_free
      rw [if_pos h]
    rw [h1]
    unfold entity_free
    rw [if_neg]
    simp [updateEnt]
  · have h1 : entity_free p slot = p := by
      unfold entity_free
      rw [if_neg h]
    rw [h1, h1]

/-- A 16x16 source entity at pixel centre (100, 100) (8.8 fixed point). -/
def soldierAt100 : Entity :=
  { zeroEntity with x := 25600, y := 25600, width := 16, height := 16 }

/-- A 64x64 tower entity at pixel centre (139, 61). -/
def towerAt139 : Entity :=
  { zeroEntity with x := 35584, y := 15616, width := 64, height := 64 }

/-- C1 counterexample: against a 64x64 tower target the exact AABB test
(Gate 3) reports overlap while the Manhattan pre-check (Gate 2) fails:
dx = dy = 39 gives Gate 3 `39 < 8+32` on both axes, but
`39+39 = 78 ≥ 8+8+32 = 48`, so Gate 2 rejects a pair Gate 3 accepts. -/
theorem gate2_rejects_gate3_overlap :
    gate3Pass soldierAt100 towerAt139 = true ∧
    gate2Pass soldierAt100 towerAt139 = false := by decide

/-- C1 amended: Gate monotonicity holds for every target whose half-width
plus half-height is at most 33 (in particular all non-tower defaults of
entity_alloc): if Gate 3 reports overlap, Gate 2's Manhattan bound also
passed. -/
theorem gate3_implies_gate2 (src tgt : Entity)
    (hsize : tgt.width / 2 + tgt.height / 2 ≤ 33)
    (h3 : gate3Pass src tgt = true) : gate2Pass src tgt = true := by
  unfold gate3Pass gate2Pass combinedHalfW combinedHalfH manhattanMax at *
  simp only [Bool.and_eq_true, decide_eq_true_eq] at h3 ⊢
  obtain ⟨h1, h2⟩ := h3
  omega

/-- A 16x16 target entity at pixel centre (110, 100). -/
def crateAt110 : Entity :=
  { zeroEntity with x := 28160, y := 25600, width := 16, height := 16 }

/-- Witness for the amended C1 at the spec's own concrete scenario
(8x8 half-extents at (100,100) and (110,100)). -/
theorem gate3_implies_gate2_holds :
    gate2Pass soldierAt100 crateAt110 = true :=
  gate3_implies_gate2 soldierAt100 crateAt110 (by decide) (by decide)

/-- C2 amended: out-of-range slots passed to `entity_free` and
out-of-range cell indices passed to `spatial_getFirstInCell` are handled
defensively (no-op, resp. SPATIAL_NULL), but `spatial_insert` performs
both of its writes unconditionally for every slot, including out-of-range
ones. -/
theorem oob_guards_free_and_query :
    (∀ (p : PoolState) (slot : Nat), MAX_ENTITIES ≤ slot →
      entity_free p slot = p) ∧
    (∀ (g : GridState) (cellIndex : Nat), SPATIAL_GRID_CELLS ≤ cellIndex →
      spatial_getFirstInCell g cellIndex = SPATIAL_NULL) ∧
    (∀ (g : GridState) (slot : Nat) (x y : Int),
      (spatial_insert g slot x y).firstInCell (spatial_getCellIndex x y) =
        slot ∧
      (spatial_insert g slot x y).nextEntity slot =
        g.firstInCell (spatial_getCellIndex x y)) := by
  refine ⟨fun p slot h => ?_, fun g cellIndex h => ?_, fun g slot x y => ?_⟩
  · unfold entity_free
    rw [if_neg (fun hc => absurd hc.1 (not_lt.mpr h))]
  · unfold spatial_getFirstInCell
    rw [if_pos h]
  · constructor <;> simp [spatial_insert]

/-- A grid state whose (out-of-bounds) `nextEntity[100]` entry holds 7. -/
def gridWithStale100 : GridState :=
  ⟨fun _ => SPATIAL_NULL, fun i => if i = 100 then 7 else SPATIAL_NULL⟩

/-- C2 counterexample: `spatial_insert` with the out-of-range slot 100
(MAX_ENTITIES = 64) is not a no-op: it overwrites `nextEntity[100]`, an
element outside the declared bounds of the 64-entry array, and prepends
100 onto cell 0's list. -/
theorem spatial_insert_oob_writes :
    MAX_ENTITIES ≤ 100 ∧
    gridWithStale100.nextEntity 100 = 7 ∧
    (spatial_insert gridWithStale100 100 0 0).nextEntity 100 = SPATIAL_NULL ∧
    gridWithStale100.firstInCell 0 = SPATIAL_NULL ∧
    (spatial_insert gridWithStale100 100 0 0).firstInCell 0 = 100 := by decide

/-- Witness for the amended C2 at concrete out-of-range inputs. -/
theorem oob_guards_hold_concretely :
    entity_free entity_initPool 200 = entity_initPool ∧
    spatial_getFirstInCell gridWithStale100 512 = SPATIAL_NULL :=
  ⟨(oob_guards_free_and_query.1 entity_initPool 200 (by decide)),
   (oob_guards_free_and_query.2.1 gridWithStale100 512 (by decide))⟩

/-- A pool whose reserved player slot 0 holds an active player entity. -/
def poolWithPlayer : PoolState :=
  ⟨fun i => if i = 0 then
      { zeroEntity with flags := ENT_ACTIVE ||| ENT_VISIBLE, type := 0x10 }
    else zeroEntity, 1⟩

/-- C3: evaluation of `entity_free` at the reserved player slot.  The
generic free path has no guard for slot 0: the active player entity is
deactivated (flags cleared, type cleared, count decremented), contradicting
the spec's requirement of an explicit reserved-slot guard. -/
theorem entity_free_clears_player_slot :
    (poolWithPlayer.entities 0).flags &&& ENT_ACTIVE ≠ 0 ∧
    ((entity_free poolWithPlayer 0).entities 0).flags = 0 ∧
    ((entity_free poolWithPlayer 0).entities 0).type = 0 ∧
    (entity_free poolWithPlayer 0).entityCount = 0 := by decide

/-- A pool whose only non-zero slot is the free tower slot 58 carrying a
stale velocity `vx = 5` from a previous occupant. -/
def poolWithStaleVel : PoolState :=
  ⟨fun i => if i = 58 then { zeroEntity with vx := 5 } else zeroEntity, 0⟩

/-- C4 counterexample: `entity_alloc` does not zero the velocity.  In a
pool whose free tower slot 58 carries a stale `vx = 5`, allocating a tower
returns slot 58 with `vx` still 5. -/
theorem entity_alloc_keeps_stale_velocity :
    (entity_alloc poolWithStaleVel 0x40).1 = 58 ∧
    ((entity_alloc poolWithStaleVel 0x40).2.entities 58).vx = 5 := by decide

/-- The amended success postcondition of `entity_alloc`: the returned slot
is active, carries the default hitbox and collision mask for the type, has
`timer` and `data` zeroed, and keeps its previous velocity (which is NOT
zeroed). -/
def allocPost (p : PoolState) (t i : Nat) : Prop :=
  ((entity_alloc p t).2.entities i).flags &&& ENT_ACTIVE ≠ 0 ∧
  ((entity_alloc p t).2.entities i).flags = ENT_ACTIVE ||| ENT_VISIBLE ∧
  ((entity_alloc p t).2.entities i).type = t ∧
  ((entity_alloc p t).2.entities i).timer = 0 ∧
  ((entity_alloc p t).2.entities i).data = 0 ∧
  ((entity_alloc p t).2.entities i).width = (allocDefaults t).1 ∧
  ((entity_alloc p t).2.entities i).height = (allocDefaults t).2.1 ∧
  ((entity_alloc p t).2.entities i).collMask = (allocDefaults t).2.2 ∧
  ((entity_alloc p t).2.entities i).vx = (p.entities i).vx ∧
  ((entity_alloc p t).2.entities i).vy = (p.entities i).vy

/-- C4 amended: for every pool state and type, when `entity_alloc`
succeeds and returns slot `i`, that slot is marked active, gets the
default bounding box and collision mask of the category/variant, has its
`data` (typeSpecificData) and `timer` zeroed, and retains its previous
velocity — the velocity is not zeroed. -/
theorem entity_alloc_success_post (p : PoolState) (t i : Nat)
    (h : (entity_alloc p t).1 = (i : Int)) : allocPost p t i := by
  unfold allocPost
  unfold entity_alloc at h ⊢
  cases hscan : scanFree p.entities (allocRange t).1
      ((allocRange t).2 - (allocRange t).1) with
  | none =>
    rw [hscan] at h
    simp at h
  | some k =>
    rw [hscan] at h
    obtain rfl : k = i := by simpa using h
    simp [updateEnt, ENT_ACTIVE, ENT_VISIBLE]

/-- Witness for the amended C4: allocating a basic enemy in the fresh pool
returns slot 2 with the amended postcondition. -/
theorem entity_alloc_success_post_holds : allocPost entity_initPool 0x20 2 :=
  entity_alloc_success_post entity_initPool 0x20 2 (by decide)

/-- C5: first-fit allocation and capacity respect.  A successful
`entity_alloc` returns the lowest-indexed slot of the category's range
whose ENT_ACTIVE flag is clear (never a slot outside the range), and it
returns the exhaustion sentinel `-1` exactly when every slot of the range
is active. -/
theorem entity_alloc_first_fit (p : PoolState) (t : Nat) :
    (∀ i : Nat, (entity_alloc p t).1 = (i : Int) →
      (allocRange t).1 ≤ i ∧ i < (allocRange t).2 ∧
      (p.entities i).flags &&& ENT_ACTIVE = 0 ∧
      ∀ j, (allocRange t).1 ≤ j → j < i →
        (p.entities j).flags &&& ENT_ACTIVE ≠ 0) ∧
    ((entity_alloc p t).1 = -1 ↔
      ∀ j, (allocRange t).1 ≤ j → j < (allocRange t).2 →
        (p.entities j).flags &&& ENT_ACTIVE ≠ 0) := by
  obtain ⟨hstart, hstop⟩ := allocRange_bounds t
  unfold entity_alloc
  cases hscan : scanFree p.entities (allocRange t).1
      ((allocRange t).2 - (allocRange t).1) with
  | none =>
    have hall := scanFree_none _ _ _ hscan
    refine ⟨fun i hi => ?_, ?_⟩
    · simp at hi
    · simp only [true_iff]
      intro j hj1 hj2
      exact hall j hj1 (by omega)
  | some k =>
    obtain ⟨h1, h2, h3, h4⟩ := scanFree_some _ _ _ _ hscan
    refine ⟨fun i hi => ?_, ?_⟩
    · obtain rfl : k = i := by simpa using hi
      exact ⟨h1, by omega, h3, h4⟩
    · simp only [iff_false_intro, false_iff]
      constructor
      · intro hbad
        simp at hbad
      · intro hall
        exact absurd h3 (hall k h1 (by omega))

/-- Witness for C5: in the fresh pool, allocating a player projectile
returns slot 26, the first slot of the projectile range. -/
theorem entity_alloc_first_fit_holds :
    (allocRange 0x30).1 ≤ 26 ∧ 26 < (allocRange 0x30).2 ∧
    (entity_initPool.entities 26).flags &&& ENT_ACTIVE = 0 ∧
    ∀ j, (allocRange 0x30).1 ≤ j → j < 26 →
      (entity_initPool.entities j).flags &&& ENT_ACTIVE ≠ 0 :=
  (entity_alloc_first_fit entity_initPool 0x30).1 26 (by decide)

/-- C10: a non-sentinel result of the three-gate collision query never
names the source slot itself and always names an entity whose ENT_ACTIVE
flag is set. -/
theorem checkCollision_result_valid (w : WorldState)
    (sourceSlot targetMask frameCount : Nat)
    (h : spatial_checkCollisionThreeGate w sourceSlot targetMask frameCount ≠
      SPATIAL_NULL) :
    spatial_checkCollisionThreeGate w sourceSlot targetMask frameCount ≠
      sourceSlot ∧
    (w.entities
        (spatial_checkCollisionThreeGate w sourceSlot targetMask frameCount)
      ).flags &&& ENT_ACTIVE ≠ 0 := by
  have hm := collisionLoop_result_match w sourceSlot targetMask frameCount 256
    (w.grid.firstInCell
      (spatial_getCellIndex (w.entities sourceSlot).x
        (w.entities sourceSlot).y)) h
  unfold collMatch at hm
  simp only [Bool.and_eq_true, bne_iff_ne, ne_eq, beq_iff_eq] at hm
  exact ⟨hm.1.1.1.1.2, hm.1.1.1.2⟩

/-- An active 16x16 player-masked entity at pixel centre (100, 100). -/
def activeSrcEnt : Entity :=
  { zeroEntity with
    flags := 3
    collMask := COLL_PLAYER
    x := 25600
    y := 25600
    width := 16
    height := 16 }

/-- An active 16x16 enemy-masked entity at pixel centre (110, 100). -/
def activeTgtEnt : Entity :=
  { zeroEntity with
    flags := 3
    collMask := COLL_ENEMY
    x := 28160
    y := 25600
    width := 16
    height := 16 }

/-- World used to witness C10: the active source in slot 0 overlaps the
active target in slot 1, which is linked into the source's grid cell 33. -/
def overlapWorld : WorldState :=
  { entities := fun i =>
      if i = 0 then activeSrcEnt else if i = 1 then activeTgtEnt
      else zeroEntity
    grid :=
      { firstInCell := fun c => if c = 33 then 1 else SPATIAL_NULL
        nextEntity := fun _ => SPATIAL_NULL } }

/-- Witness for C10 on `overlapWorld` at frame 1 (slot 1 has odd
parity). -/
theorem checkCollision_result_valid_holds :
    spatial_checkCollisionThreeGate overlapWorld 0 COLL_ENEMY 1 ≠ 0 ∧
    (overlapWorld.entities
        (spatial_checkCollisionThreeGate overlapWorld 0 COLL_ENEMY 1)
      ).flags &&& ENT_ACTIVE ≠ 0 :=
  checkCollision_result_valid overlapWorld 0 COLL_ENEMY 1 (by decide)

/-- C7, frame staggering: if the source's cell list consists of the single
candidate `c`, which is distinct from the source, active, Gate-1/2/3
positive, then the query reports `c` exactly when the slot parity matches
the frame parity; over any two consecutive frames the collision is
reported exactly once (at most every other frame, detection latency at
most one frame). -/
theorem stagger_reports_exactly_once (w : WorldState) (s c mask f : Nat)
    (hfc : w.grid.firstInCell
      (spatial_getCellIndex (w.entities s).x (w.entities s).y) = c)
    (hnext : w.grid.nextEntity c = SPATIAL_NULL)
    (hc : c ≠ SPATIAL_NULL)
    (hcs : c ≠ s)
    (hact : (w.entities c).flags &&& ENT_ACTIVE ≠ 0)
    (hmask : (w.entities c).collMask &&& mask ≠ 0)
    (hg2 : gate2Pass (w.entities s) (w.entities c) = true)
    (hg3 : gate3Pass (w.entities s) (w.entities c) = true) :
    (spatial_checkCollisionThreeGate w s mask f = c ↔ c &&& 1 = f &&& 1) ∧
    ((spatial_checkCollisionThreeGate w s mask f = c ∧
        spatial_checkCollisionThreeGate w s mask (f + 1) ≠ c) ∨
      (spatial_checkCollisionThreeGate w s mask f ≠ c ∧
        spatial_checkCollisionThreeGate w s mask (f + 1) = c)) := by
  have key : ∀ g : Nat,
      spatial_checkCollisionThreeGate w s mask g =
        if c &&& 1 = g &&& 1 then c else SPATIAL_NULL := by
    intro g
    unfold spatial_checkCollisionThreeGate
    rw [hfc]
    unfold collisionLoop
    rw [if_neg hc]
    by_cases hpar : c &&& 1 = g &&& 1
    · rw [if_pos hpar]
      have hm : collMatch w s mask g c = true := by
        unfold collMatch
        simp only [Bool.and_eq_true, beq_iff_eq, bne_iff_ne, ne_eq]
        exact ⟨⟨⟨⟨⟨hpar, hcs⟩, hact⟩, hmask⟩, hg2⟩, hg3⟩
      rw [if_pos hm]
    · rw [if_neg hpar]
      have hm : collMatch w s mask g c = false := by
        unfold collMatch
        simp only [Bool.and_eq_false_iff, beq_eq_false_iff_ne, ne_eq]
        exact Or.inl (Or.inl (Or.inl (Or.inl (Or.inl hpar))))
      rw [if_neg (by simp [hm]), hnext]
      unfold collisionLoop
      simp
  have hparity : (c &&& 1 = f &&& 1) ↔ ¬(c &&& 1 = (f + 1) &&& 1) := by
    simp only [Nat.and_one_is_mod]
    omega
  have hne : ∀ g : Nat, ¬(c &&& 1 = g &&& 1) →
      spatial_checkCollisionThreeGate w s mask g ≠ c := by
    intro g hpar
    rw [key g, if_neg hpar]
    intro heq
    exact absurd heq.symm hc
  constructor
  · rw [key f]
    by_cases hpar : c &&& 1 = f &&& 1
    · simp [hpar]
    · rw [if_neg hpar]
      constructor
      · intro heq
        exact absurd heq.symm hc
      · intro heq
        exact absurd heq hpar
  · by_cases hpar : c &&& 1 = f &&& 1
    · left
      exact ⟨by rw [key f, if_pos hpar], hne (f + 1) (hparity.mp hpar)⟩
    · right
      have hpar1 : c &&& 1 = (f + 1) &&& 1 := by
        simp only [Nat.and_one_is_mod] at hpar ⊢
        omega
      exact ⟨hne f hpar, by rw [key (f + 1), if_pos hpar1]⟩

/-- World used to witness C7: like `overlapWorld`, an even-slot source (0)
and an odd-slot overlapping candidate (1) alone in the cell list. -/
def staggerWorld : WorldState :=
  { entities := fun i =>
      if i = 0 then activeSrcEnt else if i = 1 then activeTgtEnt
      else zeroEntity
    grid :=
      { firstInCell := fun c => if c = 33 then 1 else SPATIAL_NULL
        nextEntity := fun _ => SPATIAL_NULL } }

/-- Witness for C7 on `staggerWorld` at frames 1 and 2: slot 1 is reported
exactly on the odd frame. -/
theorem stagger_reports_exactly_once_holds :
    (spatial_checkCollisionThreeGate staggerWorld 0 COLL_ENEMY 1 = 1 ↔
      1 &&& 1 = 1 &&& 1) ∧
    ((spatial_checkCollisionThreeGate staggerWorld 0 COLL_ENEMY 1 = 1 ∧
        spatial_checkCollisionThreeGate staggerWorld 0 COLL_ENEMY 2 ≠ 1) ∨
      (spatial_checkCollisionThreeGate staggerWorld 0 COLL_ENEMY 1 ≠ 1 ∧
        spatial_checkCollisionThreeGate staggerWorld 0 COLL_ENEMY 2 = 1)) :=
  stagger_reports_exactly_once staggerWorld 0 1 COLL_ENEMY 1
    (by decide) (by decide) (by decide) (by decide) (by decide) (by decide)
    (by decide) (by decide)

theorem activeCount_le (p : PoolState) : activeCount p ≤ MAX_ENTITIES := by
  unfold activeCount
  calc (List.range MAX_ENTITIES).countP (fun i => isActive (p.entities i)) ≤
      (List.range MAX_ENTITIES).length := List.countP_le_length _
    _ = MAX_ENTITIES := List.length_range _

theorem countInv_init : countInv entity_initPool := by
  unfold countInv activeCount
  decide

theorem countInv_alloc (p : PoolState) (t : Nat) (h : countInv p) :
    countInv (entity_alloc p t).2 := by
  unfold entity_alloc
  cases hscan : scanFree p.entities (allocRange t).1
      ((allocRange t).2 - (allocRange t).1) with
  | none => exact h
  | some k =>
    obtain ⟨h1, h2, h3, _⟩ := scanFree_some _ _ _ _ hscan
    obtain ⟨hs, he⟩ := allocRange_bounds t
    have hk64 : k < MAX_ENTITIES := by omega
    have hcount := activeCount_le p
    unfold countInv activeCount at h hcount ⊢
    have hflip := countP_range_flip
      (fun j => isActive (p.entities j))
      (fun j => isActive (updateEnt p.entities k
        { p.entities k with
          flags := ENT_ACTIVE ||| ENT_VISIBLE
          type := t
          timer := 0
          data := 0
          width := (allocDefaults t).1
          height := (allocDefaults t).2.1
          collMask := (allocDefaults t).2.2 } j))
      MAX_ENTITIES k hk64
      (fun j hj => by simp [updateEnt, hj])
      (by simp [isActive, h3])
      (by simp [updateEnt, isActive, ENT_ACTIVE, ENT_VISIBLE])
    simp only [updateEnt] at hflip ⊢
    rw [hflip, ← h]
    have hlt : p.entityCount + 1 < 256 := by
      have hM : MAX_ENTITIES = 64 := rfl
      omega
    exact Nat.mod_eq_of_lt hlt

theorem countInv_free (p : PoolState) (slot : Nat) (h : countInv p) :
    countInv (entity_free p slot) := by
  unfold entity_free
  by_cases hg : slot < MAX_ENTITIES ∧
      (p.entities slot).flags &&& ENT_ACTIVE ≠ 0
  · rw [if_pos hg]
    unfold countInv activeCount at h ⊢
    have hflip := countP_range_flip
      (fun j => isActive (updateEnt p.entities slot
        { p.entities slot with flags := 0, type := 0 } j))
      (fun j => isActive (p.entities j))
      MAX_ENTITIES slot hg.1
      (fun j hj => by simp [updateEnt, hj])
      (by simp [updateEnt, isActive, ENT_ACTIVE])
      (by simp [isActive]; exact hg.2)
    have hposc : 0 < List.countP (fun j => isActive (p.entities j))
        (List.range MAX_ENTITIES) := by
      rw [List.countP_pos_iff]
      exact ⟨slot, List.mem_range.mpr hg.1, by simp [isActive]; exact hg.2⟩
    have hpos : 0 < p.entityCount := by omega
    simp only [updateEnt] at hflip ⊢
    rw [if_pos hpos]
    omega
  · rw [if_neg hg]
    exact h

theorem countInv_step (p : PoolState) (op : PoolOp) (h : countInv p) :
    countInv (poolStep p op) := by
  cases op with
  | alloc t => exact countInv_alloc p t h
  | free slot => exact countInv_free p slot h

/-- C9: for every pool state reachable from `entity_initPool` by any
sequence of `entity_alloc` and `entity_free` calls, `entityCount` equals
the number of entities whose ENT_ACTIVE flag is set. -/
theorem entityCount_eq_activeCount (ops : List PoolOp) :
    (runOps ops).entityCount = activeCount (runOps ops) := by
  have main : ∀ (l : List PoolOp) (p : PoolState), countInv p →
      countInv (l.foldl poolStep p) := by
    intro l
    induction l with
    | nil => intro p h; exact h
    | cons op l ih => intro p h; exact ih _ (countInv_step p op h)
  exact main ops entity_initPool countInv_init

end ARDK
